import Mathlib

/-!
Verification of the workflow-construction script
src/images/coastal-change/workflowCD2_coastal.py.

The script is a straight-line Python program: an argument-count check,
a sequence of task-node declarations and input-slot assignments against a
remote-execution SDK, construction of a workflow from the declared nodes,
eight save directives, and three print statements.

The embedding transcribes the main body of the script (everything after the
argument-count check) into a list of statements, and gives it two semantics:

- declRun: the graph exactly as the text declares it, resolving each
  textual output reference as written, without checking that the referenced
  name is defined.  This is the structural graph the claims about wiring,
  node order and save paths speak about.
- pyRun / runScript: the runtime semantics, with Python name resolution.
  A statement whose right-hand side reads a name that is not defined
  terminates the process with an uncaught NameError, exactly as Python
  would.  The script text reads the names rawpost, random, string and join,
  none of which is ever defined or imported, so every invocation that
  passes the argument-count check dies at the first of these reads.
-/

namespace CoastalWorkflow

/-- A value held by an input slot of a task node: either a literal string
(an external CLI argument already resolved to its value) or a reference
to the named output slot of another task variable. -/
inductive PyVal where
  | lit (s : String)
  | outRef (node slot : String)
deriving Repr, DecidableEq

/-- The right-hand side of an input-slot assignment as written in the
script text: either a plain variable holding an external argument, or an
output reference of the form name.outputs.slot.value. -/
inductive RHS where
  | var (name : String)
  | out (node slot : String)
deriving Repr, DecidableEq

/-- One statement of the main body of the script (everything after the
argument-count check and the three argv assignments). -/
inductive Stmt where
  | task (v op : String)
  | domain (v d : String)
  | inp (v slot : String) (rhs : RHS)
  | mkWf (vars : List String)
  | genRand
  | genLoc
  | save (v slot sfx : String)
  | pr (needs : List String) (tag : String)
deriving Repr, DecidableEq

/-- A task node: the variable it is bound to, the remote operation name it
was created with, an optional domain, and the input slots assigned to it,
in assignment order. -/
structure TNode where
  var : String
  op : String
  dom : Option String := none
  inputs : List (String × PyVal) := []
deriving Repr, DecidableEq

/-- The main body of the script, transcribed statement by statement from
lines 52 to 131 of workflowCD2_coastal.py.  Note three features of the
source text that the transcription keeps verbatim: the raster input of
cd_tri reads rawpost (a name that is never defined anywhere in the file;
the other classifiers read water_post); the workflow node list places
cd_loss before cd_gain; and the save destinations are built from a random
20-character segment under the fixed trial-runs location, without using
the myBucket argument. -/
def scriptStmts : List Stmt :=
  [ .task "ipa" "protogenV2CD_READY",
    .inp "ipa" "raster" (.var "postimage"),
    .inp "ipa" "slave" (.var "preimage"),
    .task "water_pre" "protogenV2RAW",
    .inp "water_pre" "raster" (.out "ipa" "slave"),
    .task "water_post" "protogenV2RAW",
    .inp "water_post" "raster" (.out "ipa" "data"),
    .task "exclusion_mask" "protogenV2CD_LULC",
    .domain "exclusion_mask" "raid",
    .inp "exclusion_mask" "raster" (.out "ipa" "data"),
    .inp "exclusion_mask" "slave" (.out "ipa" "slave"),
    .task "cd_tri" "protogenV2CD_BIN_TRI",
    .inp "cd_tri" "raster" (.out "rawpost" "data"),
    .inp "cd_tri" "slave" (.out "water_pre" "data"),
    .inp "cd_tri" "mask" (.out "exclusion_mask" "data"),
    .task "cd_gain" "protogenV2CD_BIN_GAIN",
    .inp "cd_gain" "raster" (.out "water_post" "data"),
    .inp "cd_gain" "slave" (.out "water_pre" "data"),
    .inp "cd_gain" "mask" (.out "exclusion_mask" "data"),
    .task "cd_loss" "protogenV2CD_BIN_LOSS",
    .inp "cd_loss" "raster" (.out "water_post" "data"),
    .inp "cd_loss" "slave" (.out "water_pre" "data"),
    .inp "cd_loss" "mask" (.out "exclusion_mask" "data"),
    .task "ddt_gain" "protogenV2CD_GDDT",
    .inp "ddt_gain" "raster" (.out "water_post" "data"),
    .inp "ddt_gain" "slave" (.out "cd_gain" "data"),
    .task "ddt_loss" "protogenV2CD_LDDT",
    .inp "ddt_loss" "raster" (.out "water_post" "data"),
    .inp "ddt_loss" "slave" (.out "cd_loss" "data"),
    .mkWf ["ipa", "water_pre", "water_post", "exclusion_mask",
           "cd_tri", "cd_loss", "cd_gain", "ddt_gain", "ddt_loss"],
    .genRand,
    .genLoc,
    .save "water_pre" "data" "/water_pre",
    .save "water_post" "data" "/water_post",
    .save "exclusion_mask" "data" "/exclusion_mask",
    .save "cd_tri" "data" "/cd_tristate",
    .save "cd_gain" "data" "/cd_bin_gain",
    .save "cd_loss" "data" "/cd_bin_loss",
    .save "ddt_gain" "data" "/ddt_gain",
    .save "ddt_loss" "data" "/ddt_loss",
    .pr [] "banner",
    .pr ["wf"] "wf.status",
    .pr ["wf"] "wf.id" ]

/-- The concatenation string.ascii_uppercase ++ string.digits from which
random.choice draws each character of the random segment. -/
def asciiUppercaseDigits : List Char := "ABCDEFGHIJKLMNOPQRSTUVWXYZ0123456789".data

/-- One call of random.choice on the 36-character alphabet, driven by one
value of the ambient random stream. -/
def randomChoice (c : Nat) : Char := asciiUppercaseDigits.getD (c % 36) 'A'

/-- The expression joining 20 calls of random.choice over
string.ascii_uppercase ++ string.digits into one string, with the random
stream made explicit as a function from draw index to choice. -/
def random_str (c : Nat → Nat) : String :=
  ⟨(List.range 20).map (fun i => randomChoice (c i))⟩

/-- The call join(a, b) in the script, with the semantics of os.path.join
for the arguments the script passes (a fixed non-empty left operand with
no trailing slash, and a right operand that never starts with a slash). -/
def osPathJoin (a b : String) : String := a ++ "/" ++ b

/-- Resolution of the three external-argument variables assigned from
sys.argv before the main body runs. -/
def resolveArg (post pre bucket : String) (name : String) : String :=
  if name = "postimage" then post
  else if name = "preimage" then pre
  else if name = "myBucket" then bucket
  else ""

/-- Appends one input-slot assignment to the node bound to variable v. -/
def setInput (ns : List TNode) (v slot : String) (val : PyVal) : List TNode :=
  ns.map (fun n => if n.var == v then { n with inputs := n.inputs ++ [(slot, val)] } else n)

/-- Sets the domain attribute on the node bound to variable v. -/
def setDomain (ns : List TNode) (v d : String) : List TNode :=
  ns.map (fun n => if n.var == v then { n with dom := some d } else n)

/-- The input slot named slot of the node bound to variable v, when both
exist. -/
def getInput (g : List TNode) (v slot : String) : Option PyVal :=
  match g.find? (fun n => n.var == v) with
  | some n => (n.inputs.find? (fun p => p.1 == slot)).map Prod.snd
  | none => none

/-- Structural state accumulated by reading the script text: the declared
nodes in declaration order, the variables listed in the workflow
constructor call, the generated random segment, the output location, and
the save directives (output reference paired with destination path) in
order. -/
structure DeclState where
  nodes : List TNode := []
  wfVars : List String := []
  randStr : String := ""
  outLoc : String := ""
  saves : List (PyVal × String) := []
deriving Repr, DecidableEq

/-- Structural semantics of one statement: record every declaration and
assignment exactly as written, resolving output references textually and
never checking whether the referenced name is defined. -/
def declStep (post pre bucket : String) (c : Nat → Nat) (st : DeclState) : Stmt → DeclState
  | .task v op => { st with nodes := st.nodes ++ [{ var := v, op := op }] }
  | .domain v d => { st with nodes := setDomain st.nodes v d }
  | .inp v slot (.var name) =>
      { st with nodes := setInput st.nodes v slot (.lit (resolveArg post pre bucket name)) }
  | .inp v slot (.out w ws) => { st with nodes := setInput st.nodes v slot (.outRef w ws) }
  | .mkWf vs => { st with wfVars := vs }
  | .genRand => { st with randStr := random_str c }
  | .genLoc => { st with outLoc := osPathJoin "platform-stories/trial-runs" st.randStr }
  | .save v slot sfx => { st with saves := st.saves ++ [(.outRef v slot, st.outLoc ++ sfx)] }
  | .pr _ _ => st

/-- The graph, workflow list and save directives exactly as the script
text declares them, for given external arguments and random stream. -/
def declRun (post pre bucket : String) (c : Nat → Nat) : DeclState :=
  List.foldl (declStep post pre bucket c) {} scriptStmts

/-- Runtime state of the interpreter with Python name resolution: the
list of currently defined names, the nodes built so far, the first
uncaught NameError (the name that failed to resolve), the number of
workflow submissions performed, the print statements executed, and the
structural fields that the surviving statements populate. -/
structure PyState where
  env : List String := []
  nodes : List TNode := []
  err : Option String := none
  submitted : Nat := 0
  printed : List String := []
  randStr : String := ""
  outLoc : String := ""
  saves : List (PyVal × String) := []
deriving Repr, DecidableEq

/-- Runtime semantics of one statement.  Reading a name that is not in the
environment raises an uncaught NameError, recorded in err; once err is
set, no further statement executes (the process has died).  Following the
specification (section 2 and the submission paragraph of section 4.1),
the external SDK call building the workflow from the node list is
modelled as the single submission of the graph to the execution service;
the names read by each statement are exactly the names the source line
reads. -/
def pyStep (post pre bucket : String) (c : Nat → Nat) (st : PyState) : Stmt → PyState
  | .task v op =>
      if st.err.isSome then st
      else if st.env.contains "gbdx" then
        { st with env := st.env ++ [v], nodes := st.nodes ++ [{ var := v, op := op }] }
      else { st with err := some "gbdx" }
  | .domain v d =>
      if st.err.isSome then st
      else if st.env.contains v then { st with nodes := setDomain st.nodes v d }
      else { st with err := some v }
  | .inp v slot (.var name) =>
      if st.err.isSome then st
      else if st.env.contains name then
        { st with nodes := setInput st.nodes v slot (.lit (resolveArg post pre bucket name)) }
      else { st with err := some name }
  | .inp v slot (.out w ws) =>
      if st.err.isSome then st
      else if st.env.contains w then
        { st with nodes := setInput st.nodes v slot (.outRef w ws) }
      else { st with err := some w }
  | .mkWf vs =>
      if st.err.isSome then st
      else match vs.find? (fun v => !(st.env.contains v)) with
        | some missing => { st with err := some missing }
        | none => { st with env := st.env ++ ["wf"], submitted := st.submitted + 1 }
  | .genRand =>
      if st.err.isSome then st
      else if st.env.contains "random" then
        if st.env.contains "string" then
          { st with env := st.env ++ ["random_str"], randStr := random_str c }
        else { st with err := some "string" }
      else { st with err := some "random" }
  | .genLoc =>
      if st.err.isSome then st
      else if st.env.contains "join" then
        if st.env.contains "random_str" then
          { st with env := st.env ++ ["output_location"],
                    outLoc := osPathJoin "platform-stories/trial-runs" st.randStr }
        else { st with err := some "random_str" }
      else { st with err := some "join" }
  | .save v slot sfx =>
      if st.err.isSome then st
      else match ["wf", v, "output_location"].find? (fun n => !(st.env.contains n)) with
        | some missing => { st with err := some missing }
        | none => { st with saves := st.saves ++ [(.outRef v slot, st.outLoc ++ sfx)] }
  | .pr needs tag =>
      if st.err.isSome then st
      else match needs.find? (fun n => !(st.env.contains n)) with
        | some missing => { st with err := some missing }
        | none => { st with printed := st.printed ++ [tag] }

/-- The names defined when the main body starts: the four imported
modules, the three argv assignments, and the SDK interface object. -/
def moduleNames : List String :=
  ["sys", "os", "fnmatch", "gbdxtools", "postimage", "preimage", "myBucket", "gbdx"]

/-- Runtime execution of the main body for given arguments and random
stream. -/
def pyRun (post pre bucket : String) (c : Nat → Nat) : PyState :=
  List.foldl (pyStep post pre bucket c) { env := moduleNames } scriptStmts

/-- The observable result of one process invocation: whether the
argument-count check exited with the usage message, the process exit
status (1 for the usage exit and for an uncaught NameError, 0 for normal
completion), and the runtime state reached by the main body (the default
empty state when the usage exit fired first). -/
structure RunResult where
  usageExit : Bool
  exitCode : Nat
  state : PyState
deriving Repr, DecidableEq

/-- The whole script applied to the list of positional CLI arguments
(sys.argv without the program name, so len of sys.argv is one more than
the length of args).  The transcribed check is the source condition
len(sys.argv) < 4 or len(sys.argv) > 4, which calls sys.exit with a
usage string; sys.exit with a string argument terminates the process
with status 1, before any node is constructed. -/
def runScript (args : List String) (c : Nat → Nat) : RunResult :=
  if args.length + 1 < 4 ∨ 4 < args.length + 1 then
    { usageExit := true, exitCode := 1, state := {} }
  else
    let st := pyRun (args.getD 0 "") (args.getD 1 "") (args.getD 2 "") c
    { usageExit := false, exitCode := if st.err.isSome then 1 else 0, state := st }

/-- Checks, walking the node list in declaration order, that every output
reference held by an input slot points at a node declared strictly
earlier: a reference to a later node, to the node itself, or to a name
that is not a declared node at all makes the check false. -/
def refsDeclaredEarlier : List String → List TNode → Bool
  | _, [] => true
  | seen, n :: rest =>
      (n.inputs.all fun p =>
        match p.2 with
        | .lit _ => true
        | .outRef w _ => seen.contains w)
      && refsDeclaredEarlier (seen ++ [n.var]) rest

/-- The wiring invariant of the specification over a whole graph. -/
def wellWired (g : List TNode) : Bool := refsDeclaredEarlier [] g

/-- The pair of bound variable name and operation name of every node of a
graph, in declaration order. -/
def nodeOps (g : List TNode) : List (String × String) := g.map (fun n => (n.var, n.op))

/-- The operation name of the node bound to variable v in graph g, or
the empty string when no such node exists. -/
def taskOf (g : List TNode) (v : String) : String :=
  (((nodeOps g).find? (fun p => p.1 == v)).map Prod.snd).getD ""

/-- The operation names of the workflow node list, in the order the
workflow constructor receives them. -/
def wfTaskSequence (st : DeclState) : List String := st.wfVars.map (taskOf st.nodes)

/-- The part of the builder state that identifies the declared nodes and
the workflow list while ignoring input values: enough to read off the
node count and the operation order. -/
def skel (st : DeclState) : List (String × String) × List String := (nodeOps st.nodes, st.wfVars)

/-- The action of one statement on the skeleton: only node declarations
and the workflow constructor touch it. -/
def skelStep (sk : List (String × String) × List String) : Stmt → List (String × String) × List String
  | .task v op => (sk.1 ++ [(v, op)], sk.2)
  | .mkWf vs => (sk.1, vs)
  | _ => sk

/-- The workflow task sequence read off a skeleton. -/
def wfTaskSeqOfSkel (sk : List (String × String) × List String) : List String :=
  sk.2.map (fun v => ((sk.1.find? (fun p => p.1 == v)).map Prod.snd).getD "")

/-- The nine-stage task order stated in section 4.1 of the specification
document (readiness, the two water layers, the exclusion mask, then the
tri-state, gain and loss classifiers, then the gain and loss distance
transforms), transcribed from the words of the spec purely for comparison
with the order the code builds. -/
def specStatedTaskOrder : List String :=
  ["protogenV2CD_READY", "protogenV2RAW", "protogenV2RAW", "protogenV2CD_LULC",
   "protogenV2CD_BIN_TRI", "protogenV2CD_BIN_GAIN", "protogenV2CD_BIN_LOSS",
   "protogenV2CD_GDDT", "protogenV2CD_LDDT"]

/-- A concrete three-argument invocation used by the concrete theorems:
the scenario named by the specification, with the random stream constantly
zero, so that the random segment is twenty A characters. -/
def sampleGraph : DeclState :=
  declRun "s3://bucket/post" "s3://bucket/pre" "platform_stories/coastal_change" (fun _ => 0)

/-- The runtime result of the same concrete invocation. -/
def sampleRun : RunResult :=
  runScript ["s3://bucket/post", "s3://bucket/pre", "platform_stories/coastal_change"] (fun _ => 0)

/-- Statements whose right-hand side reads the myBucket variable; the
transcribed script contains none, which is what makes the third CLI
argument inert. -/
def readsBucket : Stmt → Bool
  | .inp _ _ (.var name) => name == "myBucket"
  | _ => false

/-- Left cancellation for string append, used to separate the eight save
destinations that share a common location segment. -/
theorem append_left_cancel_str {a b c : String} (h : a ++ b = a ++ c) : b = c := by
  apply String.ext
  have h2 := congrArg String.data h
  rw [String.data_append, String.data_append] at h2
  exact List.append_cancel_left h2


/-- Assigning an input slot changes no variable or operation name of any
node. -/
theorem nodeOps_setInput (ns : List TNode) (v slot : String) (val : PyVal) :
    nodeOps (setInput ns v slot val) = nodeOps ns := by
  unfold nodeOps setInput
  rw [List.map_map]
  apply List.map_congr_left
  intro n _
  by_cases h : n.var = v <;> simp [h]

/-- Setting a domain changes no variable or operation name of any node. -/
theorem nodeOps_setDomain (ns : List TNode) (v d : String) :
    nodeOps (setDomain ns v d) = nodeOps ns := by
  unfold nodeOps setDomain
  rw [List.map_map]
  apply List.map_congr_left
  intro n _
  by_cases h : n.var = v <;> simp [h]

/-- One structural step acts on the skeleton through skelStep alone. -/
theorem skel_declStep (post pre bucket : String) (c : Nat → Nat) (st : DeclState) (s : Stmt) :
    skel (declStep post pre bucket c st s) = skelStep (skel st) s := by
  cases s with
  | task v op => simp [declStep, skelStep, skel, nodeOps]
  | domain v d => simp [declStep, skelStep, skel, nodeOps_setDomain]
  | inp v slot rhs =>
      cases rhs with
      | var name => simp [declStep, skelStep, skel, nodeOps_setInput]
      | out w ws => simp [declStep, skelStep, skel, nodeOps_setInput]
  | mkWf vs => rfl
  | genRand => rfl
  | genLoc => rfl
  | save v slot sfx => rfl
  | pr needs tag => rfl

/-- The workflow variable list of a builder state is the second skeleton
component. -/
theorem wfVars_eq_skel_snd (st : DeclState) : st.wfVars = (skel st).2 := rfl

/-- The workflow task sequence of a builder state is determined by its
skeleton. -/
theorem wfTaskSequence_eq_skel (st : DeclState) :
    wfTaskSequence st = wfTaskSeqOfSkel (skel st) := rfl

/-- The skeleton of a finished structural run is the skelStep fold of the
statement list: node identities and workflow order are independent of the
CLI arguments and of the random stream. -/
theorem foldl_skel (post pre bucket : String) (c : Nat → Nat) :
    ∀ (stmts : List Stmt) (st : DeclState),
      skel (List.foldl (declStep post pre bucket c) st stmts) =
        List.foldl skelStep (skel st) stmts
  | [], _ => rfl
  | s :: rest, st => by
      rw [List.foldl_cons, List.foldl_cons, ← skel_declStep post pre bucket c st s]
      exact foldl_skel post pre bucket c rest _

set_option maxRecDepth 100000 in
/-- Claim C1 (code_bug evidence): the wiring invariant fails on the graph
the script declares.  The raster input slot of cd_tri is assigned the
output reference of rawpost, and rawpost is not the variable of any
declared node (so the reference targets an undeclared name, where the
claim requires an external argument or a strictly earlier node). -/
theorem c1_forward_reference_bug :
    wellWired sampleGraph.nodes = false ∧
    getInput sampleGraph.nodes "cd_tri" "raster" = some (PyVal.outRef "rawpost" "data") ∧
    (sampleGraph.nodes.map TNode.var).contains "rawpost" = false := by decide

set_option maxRecDepth 100000 in
/-- Claim C2 (code_bug evidence): on a well-formed three-argument
invocation the argument-count check passes, but execution terminates with
an uncaught NameError on the undefined name rawpost, with exit status 1,
having performed zero workflow submissions and zero prints: the program
never submits the graph and never prints the status or the identifier. -/
theorem c2_no_submission_bug :
    sampleRun.usageExit = false ∧
    sampleRun.state.err = some "rawpost" ∧
    sampleRun.state.submitted = 0 ∧
    sampleRun.state.printed = [] ∧
    sampleRun.exitCode = 1 := by decide

set_option maxRecDepth 100000 in
/-- Claim C3 counterexample: with bucket-prefix argument
platform_stories/coastal_change and an all-A random segment, the first
save destination is platform-stories/trial-runs/AAAAAAAAAAAAAAAAAAAA/water_pre,
whose first 32 characters differ from the bucket-prefix argument followed
by a slash: no destination path lies under the bucket-prefix argument. -/
theorem c3_bucket_missing_counterexample :
    (sampleGraph.saves.map Prod.snd).getD 0 "" =
      "platform-stories/trial-runs/AAAAAAAAAAAAAAAAAAAA/water_pre" ∧
    ((sampleGraph.saves.map Prod.snd).getD 0 "").data.take 32 ≠
      "platform_stories/coastal_change/".data := by decide

/-- Claim C3 (amended): for every invocation and every random stream, the
eight save destinations are exactly the fixed trial-runs location joined
with the random segment, followed by the eight short names, with no
bucket-prefix component. -/
theorem c3_save_path_shape (post pre bucket : String) (c : Nat → Nat) :
    (declRun post pre bucket c).saves.map Prod.snd =
      ["/water_pre", "/water_post", "/exclusion_mask", "/cd_tristate",
       "/cd_bin_gain", "/cd_bin_loss", "/ddt_gain", "/ddt_loss"].map
        (fun sfx => osPathJoin "platform-stories/trial-runs" (random_str c) ++ sfx) := rfl

set_option maxRecDepth 100000 in
/-- Claim C4 (code_bug evidence): cd_gain and cd_loss have raster, slave
and mask wired to the post water layer, pre water layer and exclusion
mask as claimed, and cd_tri has slave and mask wired as claimed, but the
raster input of cd_tri references the undefined name rawpost instead of
water_post. -/
theorem c4_classifier_inputs_bug :
    getInput sampleGraph.nodes "cd_gain" "raster" = some (PyVal.outRef "water_post" "data") ∧
    getInput sampleGraph.nodes "cd_gain" "slave" = some (PyVal.outRef "water_pre" "data") ∧
    getInput sampleGraph.nodes "cd_gain" "mask" = some (PyVal.outRef "exclusion_mask" "data") ∧
    getInput sampleGraph.nodes "cd_loss" "raster" = some (PyVal.outRef "water_post" "data") ∧
    getInput sampleGraph.nodes "cd_loss" "slave" = some (PyVal.outRef "water_pre" "data") ∧
    getInput sampleGraph.nodes "cd_loss" "mask" = some (PyVal.outRef "exclusion_mask" "data") ∧
    getInput sampleGraph.nodes "cd_tri" "slave" = some (PyVal.outRef "water_pre" "data") ∧
    getInput sampleGraph.nodes "cd_tri" "mask" = some (PyVal.outRef "exclusion_mask" "data") ∧
    getInput sampleGraph.nodes "cd_tri" "raster" = some (PyVal.outRef "rawpost" "data") ∧
    getInput sampleGraph.nodes "cd_tri" "raster" ≠ some (PyVal.outRef "water_post" "data") := by decide

set_option maxRecDepth 100000 in
/-- Claim C5 counterexample: the task sequence of the constructed workflow
list differs from the order stated in section 4.1 of the specification:
at position five the workflow list holds the loss classifier where the
specified order holds the gain classifier. -/
theorem c5_workflow_order_counterexample :
    wfTaskSequence sampleGraph ≠ specStatedTaskOrder ∧
    (wfTaskSequence sampleGraph).getD 5 "" = "protogenV2CD_BIN_LOSS" ∧
    specStatedTaskOrder.getD 5 "" = "protogenV2CD_BIN_GAIN" := by decide

/-- Claim C5 (amended): for every invocation that passes the
argument-count check, regardless of argument values and random stream,
the constructed workflow lists exactly nine task nodes, in the order
readiness, water-pre, water-post, exclusion mask, tri-state classifier,
loss classifier, gain classifier, gain distance transform, loss distance
transform. -/
theorem c5_nine_nodes_order (post pre bucket : String) (c : Nat → Nat) :
    (declRun post pre bucket c).wfVars.length = 9 ∧
    wfTaskSequence (declRun post pre bucket c) =
      ["protogenV2CD_READY", "protogenV2RAW", "protogenV2RAW", "protogenV2CD_LULC",
       "protogenV2CD_BIN_TRI", "protogenV2CD_BIN_LOSS", "protogenV2CD_BIN_GAIN",
       "protogenV2CD_GDDT", "protogenV2CD_LDDT"] := by
  have hskel : skel (declRun post pre bucket c) = List.foldl skelStep (skel {}) scriptStmts :=
    foldl_skel post pre bucket c scriptStmts {}
  constructor
  · rw [wfVars_eq_skel_snd, hskel]
    decide
  · rw [wfTaskSequence_eq_skel, hskel]
    decide

/-- Claim C6 (confirmed): the program exits with the usage message exactly
when the count of positional CLI arguments differs from three, and in
that case it terminates with exit status 1 before constructing any task
node. -/
theorem c6_usage_gate (args : List String) (c : Nat → Nat) :
    ((runScript args c).usageExit = true ↔ args.length ≠ 3) ∧
    (args.length ≠ 3 →
      (runScript args c).exitCode = 1 ∧ (runScript args c).state.nodes = []) := by
  unfold runScript
  split
  · next h =>
      refine ⟨by simp; omega, fun _ => ⟨rfl, rfl⟩⟩
  · next h =>
      constructor
      · simp
        omega
      · intro hne
        exfalso
        omega

/-- Witness for the usage-gate theorem at the concrete empty argument
list. -/
theorem c6_usage_gate_witness :
    (runScript [] (fun _ => 0)).exitCode = 1 ∧ (runScript [] (fun _ => 0)).state.nodes = [] :=
  (c6_usage_gate [] (fun _ => 0)).2 (by decide)

/-- Claim C7 (confirmed): for every invocation and random stream, exactly
eight save directives are produced, their destination paths are the
common generated location segment followed by the eight distinct short
names, and the eight paths are pairwise distinct. -/
theorem c7_eight_distinct_saves (post pre bucket : String) (c : Nat → Nat) :
    (declRun post pre bucket c).saves.length = 8 ∧
    (declRun post pre bucket c).saves.map Prod.snd =
      ["/water_pre", "/water_post", "/exclusion_mask", "/cd_tristate",
       "/cd_bin_gain", "/cd_bin_loss", "/ddt_gain", "/ddt_loss"].map
        (fun sfx => osPathJoin "platform-stories/trial-runs" (random_str c) ++ sfx) ∧
    ((declRun post pre bucket c).saves.map Prod.snd).Nodup := by
  refine ⟨rfl, rfl, ?_⟩
  have h1 : (declRun post pre bucket c).saves.map Prod.snd =
      ["/water_pre", "/water_post", "/exclusion_mask", "/cd_tristate",
       "/cd_bin_gain", "/cd_bin_loss", "/ddt_gain", "/ddt_loss"].map
        (fun sfx => osPathJoin "platform-stories/trial-runs" (random_str c) ++ sfx) := rfl
  rw [h1]
  apply List.Nodup.map
  · intro a b hab
    exact append_left_cancel_str hab
  · decide

set_option maxRecDepth 100000 in
/-- Claim C8 (confirmed): invoking with the post image, pre image and
bucket-prefix of the concrete scenario, the first node constructed at
runtime is ipa with raster equal to the first argument and slave equal to
the second, and the exclusion-mask node has raster and slave set to the
data and slave output references of ipa. -/
theorem c8_concrete_wiring :
    (sampleRun.state.nodes.head?.map TNode.var) = some "ipa" ∧
    getInput sampleRun.state.nodes "ipa" "raster" = some (PyVal.lit "s3://bucket/post") ∧
    getInput sampleRun.state.nodes "ipa" "slave" = some (PyVal.lit "s3://bucket/pre") ∧
    getInput sampleRun.state.nodes "exclusion_mask" "raster" = some (PyVal.outRef "ipa" "data") ∧
    getInput sampleRun.state.nodes "exclusion_mask" "slave" = some (PyVal.outRef "ipa" "slave") := by decide

/-- Resolution of any variable other than myBucket is independent of the
bucket argument. -/
theorem resolveArg_no_bucket (post pre b1 b2 name : String)
    (h : (name == "myBucket") = false) :
    resolveArg post pre b1 name = resolveArg post pre b2 name := by
  have h2 : ¬(name = "myBucket") := by simpa using h
  unfold resolveArg
  split_ifs <;> rfl

/-- A structural step that does not read myBucket is independent of the
bucket argument. -/
theorem declStep_no_bucket (post pre b1 b2 : String) (c : Nat → Nat) (st : DeclState)
    (s : Stmt) (h : readsBucket s = false) :
    declStep post pre b1 c st s = declStep post pre b2 c st s := by
  cases s with
  | inp v slot rhs =>
      cases rhs with
      | var name =>
          have h2 : (name == "myBucket") = false := by simpa [readsBucket] using h
          simp only [declStep]
          rw [resolveArg_no_bucket post pre b1 b2 name h2]
      | out w ws => rfl
  | task v op => rfl
  | domain v d => rfl
  | mkWf vs => rfl
  | genRand => rfl
  | genLoc => rfl
  | save v slot sfx => rfl
  | pr needs tag => rfl

/-- A runtime step that does not read myBucket is independent of the
bucket argument. -/
theorem pyStep_no_bucket (post pre b1 b2 : String) (c : Nat → Nat) (st : PyState)
    (s : Stmt) (h : readsBucket s = false) :
    pyStep post pre b1 c st s = pyStep post pre b2 c st s := by
  cases s with
  | inp v slot rhs =>
      cases rhs with
      | var name =>
          have h2 : (name == "myBucket") = false := by simpa [readsBucket] using h
          simp only [pyStep]
          rw [resolveArg_no_bucket post pre b1 b2 name h2]
      | out w ws => rfl
  | task v op => rfl
  | domain v d => rfl
  | mkWf vs => rfl
  | genRand => rfl
  | genLoc => rfl
  | save v slot sfx => rfl
  | pr needs tag => rfl

/-- A structural run over statements that never read myBucket is
independent of the bucket argument. -/
theorem foldl_declStep_no_bucket (post pre b1 b2 : String) (c : Nat → Nat) :
    ∀ (stmts : List Stmt) (st : DeclState),
      (stmts.all fun s => !readsBucket s) = true →
      List.foldl (declStep post pre b1 c) st stmts = List.foldl (declStep post pre b2 c) st stmts
  | [], _, _ => rfl
  | s :: rest, st, h => by
      rw [List.all_cons, Bool.and_eq_true] at h
      have h1 : readsBucket s = false := by simpa using h.1
      rw [List.foldl_cons, List.foldl_cons, declStep_no_bucket post pre b1 b2 c st s h1]
      exact foldl_declStep_no_bucket post pre b1 b2 c rest _ h.2

/-- A runtime run over statements that never read myBucket is independent
of the bucket argument. -/
theorem foldl_pyStep_no_bucket (post pre b1 b2 : String) (c : Nat → Nat) :
    ∀ (stmts : List Stmt) (st : PyState),
      (stmts.all fun s => !readsBucket s) = true →
      List.foldl (pyStep post pre b1 c) st stmts = List.foldl (pyStep post pre b2 c) st stmts
  | [], _, _ => rfl
  | s :: rest, st, h => by
      rw [List.all_cons, Bool.and_eq_true] at h
      have h1 : readsBucket s = false := by simpa using h.1
      rw [List.foldl_cons, List.foldl_cons, pyStep_no_bucket post pre b1 b2 c st s h1]
      exact foldl_pyStep_no_bucket post pre b1 b2 c rest _ h.2

/-- Claim C9 (confirmed): two invocations that differ only in the third
(bucket-prefix) argument and make identical random choices produce the
same declared graph, workflow list and save destinations, and the same
runtime outcome: the third argument influences nothing. -/
theorem c9_bucket_independence (post pre b1 b2 : String) (c : Nat → Nat) :
    declRun post pre b1 c = declRun post pre b2 c ∧
    runScript [post, pre, b1] c = runScript [post, pre, b2] c := by
  constructor
  · exact foldl_declStep_no_bucket post pre b1 b2 c scriptStmts {} (by decide)
  · have hpy : pyRun post pre b1 c = pyRun post pre b2 c :=
      foldl_pyStep_no_bucket post pre b1 b2 c scriptStmts { env := moduleNames } (by decide)
    have h1 : ¬([post, pre, b1].length + 1 < 4 ∨ 4 < [post, pre, b1].length + 1) := by simp
    have h2 : ¬([post, pre, b2].length + 1 < 4 ∨ 4 < [post, pre, b2].length + 1) := by simp
    unfold runScript
    rw [if_neg h1, if_neg h2]
    show ({ usageExit := false,
            exitCode := if (pyRun post pre b1 c).err.isSome then 1 else 0,
            state := pyRun post pre b1 c } : RunResult) =
         { usageExit := false,
            exitCode := if (pyRun post pre b2 c).err.isSome then 1 else 0,
            state := pyRun post pre b2 c }
    rw [hpy]

/-- Claim C10 (confirmed): the generated random path segment has exactly
20 characters, each an uppercase ASCII letter or a decimal digit. -/
theorem c10_random_segment (c : Nat → Nat) :
    (random_str c).length = 20 ∧
    ((random_str c).data.all (fun ch => ch.isUpper || ch.isDigit)) = true := by
  constructor
  · show ((List.range 20).map (fun i => randomChoice (c i))).length = 20
    simp
  · rw [List.all_eq_true]
    intro ch hch
    have hch2 : ch ∈ (List.range 20).map (fun i => randomChoice (c i)) := hch
    rw [List.mem_map] at hch2
    obtain ⟨i, hi, rfl⟩ := hch2
    have h36 : c i % 36 < asciiUppercaseDigits.length := by
      have hlt : c i % 36 < 36 := Nat.mod_lt _ (by decide)
      simpa [asciiUppercaseDigits] using hlt
    have hmem : randomChoice (c i) ∈ asciiUppercaseDigits := by
      rw [randomChoice, List.getD_eq_getElem _ _ h36]
      exact List.getElem_mem h36
    have hall : ∀ x ∈ asciiUppercaseDigits, (x.isUpper || x.isDigit) = true := by decide
    exact hall _ hmem

end CoastalWorkflow
